import Mathlib

/-!
Verification of the price-resolution module of `src/tests/stock_tool.py`
(StockAnal_Sys).  Python strings are modelled as `List Char`, Python floats
and ints as exact rationals `Rat` / `Int`, pandas DataFrames as `List Row`,
JSON payloads as the inductive `Json`, and raised exceptions as `Except` /
explicit error components.  Network and upstream data sources are oracles
passed in as parameters.
-/

set_option maxRecDepth 4000

/-- `MarketType` enum of stock_tool.py (lines 137-141). -/
inductive MarketType where
  | A_SHANGHAI
  | A_SHENZHEN
  | US
  | HK
deriving DecidableEq, Repr

/-- `MarketType.value`: the enum's string payload. -/
def MarketType.value : MarketType → List Char
  | .A_SHANGHAI => "sh".data
  | .A_SHENZHEN => "sz".data
  | .US => "us".data
  | .HK => "hk".data

/-- Python `a.startswith(b)` / the test that `p` is an initial segment of the
second argument (used for `str.startswith` in stock_tool.py). -/
def leadsWith : List Char → List Char → Bool
  | [], _ => true
  | _ :: _, [] => false
  | a :: as, b :: bs => a == b && leadsWith as bs

/-- `STOCK_PREFIX_MAP` of stock_tool.py (lines 144-152), in Python dict
insertion order. -/
def STOCK_PREFIX_MAP : List (List Char × MarketType) :=
  [("6".data, .A_SHANGHAI), ("5".data, .A_SHANGHAI), ("0".data, .A_SHENZHEN),
   ("3".data, .A_SHENZHEN), ("9".data, .A_SHANGHAI), ("00700".data, .HK),
   ("AAPL".data, .US)]

/-- The `for prefix, market in STOCK_PREFIX_MAP.items(): if code.startswith(...)`
loop of `format_stock_code` (lines 170-172). -/
def matchPrefixTable (code : List Char) : List (List Char × MarketType) → Option MarketType
  | [] => none
  | (p, m) :: rest => if leadsWith p code then some m else matchPrefixTable code rest

/-- The membership test of Python `lstrip('.SHZ')`: is `c` one of the stripped
characters. -/
def isStripChar (c : Char) : Bool :=
  c == '.' || c == 'S' || c == 'H' || c == 'Z'

/-- `format_stock_code` (stock_tool.py lines 167-177):
`code = stock_code.upper().lstrip('.SHZ')`, then the prefix-table loop, then
the 6-digit fallback `STOCK_PREFIX_MAP.get(code[0], A_SHANGHAI)`, else
`(code, A_SHANGHAI)`. -/
def format_stock_code (stock_code : List Char) : List Char × MarketType :=
  let code := (stock_code.map Char.toUpper).dropWhile isStripChar
  match matchPrefixTable code STOCK_PREFIX_MAP with
  | some m => (code, m)
  | none =>
    if code.length = 6 then
      (code, (STOCK_PREFIX_MAP.lookup (code.take 1)).getD MarketType.A_SHANGHAI)
    else
      (code, MarketType.A_SHANGHAI)

/-- JSON values as returned by `response.json()`. -/
inductive Json where
  | num (q : Rat)
  | str (s : List Char)
  | obj (fields : List (List Char × Json))
  | null

/-- Python truthiness of an optional JSON value (`data.get("data")` used as a
condition): absent, `null`, `0`, `""` and `{}` are falsy. -/
def truthy : Option Json → Bool
  | none => false
  | some (.num q) => q != 0
  | some (.str s) => !s.isEmpty
  | some (.obj fs) => !fs.isEmpty
  | some .null => false

/-- Python `x == 0` on an optional JSON value (`data.get("rc") == 0`). -/
def isNumZero : Option Json → Bool
  | some (.num q) => q == 0
  | _ => false

/-- Reading a numeric field with Python `dict.get(key, default)` followed by a
numeric operation (`round` / `int`): absent yields the default, a non-numeric
value raises `TypeError`. -/
def asNum : Option Json → Rat → Except (List Char) Rat
  | none, d => .ok d
  | some (.num q), _ => .ok q
  | some _, _ => .error "TypeError".data

/-- Round to the nearest integer, ties to even — Python 3 `round` semantics on
exact values. -/
def roundHalfEven (q : Rat) : Int :=
  let f := ⌊q⌋
  if q - f < 1/2 then f
  else if (1:Rat)/2 < q - f then f + 1
  else if f % 2 = 0 then f else f + 1

/-- Python `round(x, 2)` modelled on exact rationals. -/
def pyRound2 (q : Rat) : Rat := (roundHalfEven (q * 100) : Rat) / 100

/-- Python `int(x)`: truncation toward zero. -/
def pyInt (q : Rat) : Int := if q < 0 then -⌊-q⌋ else ⌊q⌋

/-- The quote dictionary produced by the resolvers: keys 代码, 名称, 当前价,
涨跌幅(%), 成交量(手), 市场类型, 数据源 of stock_tool.py.  `name` is `Json`
because the backup parser stores `item.get("f58", code)` unconverted. -/
structure Quote where
  code : List Char
  name : Json
  price : Rat
  changePct : Rat
  volume : Int
  marketType : List Char
  source : List Char

/-- A row of the bulk snapshot DataFrame `ak.stock_zh_a_spot_em()`: columns
代码, 名称, 最新价, 涨跌幅, 成交量. -/
structure Row where
  code : List Char
  name : List Char
  latestPrice : Rat
  changePct : Rat
  volume : Rat

/-- `format_a_share_data` (stock_tool.py lines 253-263). -/
def format_a_share_data (row : Row) : Quote :=
  { code := row.code
    name := Json.str row.name
    price := pyRound2 row.latestPrice
    changePct := pyRound2 row.changePct
    volume := pyInt row.volume
    marketType := "A股".data
    source := "主API".data }

/-- `parse_eastmoney_data` (stock_tool.py lines 266-279).  `.error` marks a
raised exception (`AttributeError` from `.get` on a non-dict, `TypeError`
from `round`/`int` on a non-number), which the caller's `except` turns into
`None`; `.ok none` is the explicit `return None` when the `rc == 0 and data`
gate fails. -/
def parse_eastmoney_data (data : Json) (code : List Char) (market : MarketType) :
    Except (List Char) (Option Quote) :=
  match data with
  | .obj top =>
    if isNumZero (top.lookup "rc".data) && truthy (top.lookup "data".data) then
      match top.lookup "data".data with
      | some (.obj item) => do
        let price ← asNum (item.lookup "f43".data) 0
        let chg ← asNum (item.lookup "f170".data) 0
        let vol ← asNum (item.lookup "f47".data) 0
        .ok (some
          { code := code
            name := (item.lookup "f58".data).getD (.str code)
            price := pyRound2 price
            changePct := pyRound2 chg
            volume := pyInt vol
            marketType := market.value
            source := "备用API".data })
      | _ => .error "AttributeError".data
    else
      .ok none
  | _ => .error "AttributeError".data

/-- One position of `re.search` with `re.IGNORECASE`: does the pattern match a
prefix of the text here?  `'.'` matches any character except a newline; other
characters match case-insensitively.  Faithful to Python `re` for patterns
whose only metacharacter is `'.'` (the patterns reaching it are normalized
ticker codes, which carry no quantifiers, classes, anchors or escapes). -/
def reMatchHere : List Char → List Char → Bool
  | [], _ => true
  | _ :: _, [] => false
  | p :: ps, c :: cs =>
    (if p == '.' then c != '\n' else p.toLower == c.toLower) && reMatchHere ps cs

/-- Python `re.search(pat, text, re.IGNORECASE)`: try the pattern at every
position of the text. -/
def reSearch (pat : List Char) : List Char → Bool
  | [] => reMatchHere pat []
  | c :: rest => reMatchHere pat (c :: rest) || reSearch pat rest

/-- `Series.str.contains(code, case=False)` of stock_tool.py line 204: pandas
defaults to `regex=True`, i.e. `re.search` with `re.IGNORECASE` — a regex
search, NOT literal substring containment (they coincide only for codes free
of regex metacharacters). -/
def containsCI (hay needle : List Char) : Bool :=
  reSearch needle hay

/-- Body of `get_cached_stock_data` (stock_tool.py lines 181-194), before the
`@cached` decorator is applied.  The upstream bulk fetch
`ak.stock_zh_a_spot_em()` is the oracle `fetch`; a raised exception
(`.error`) is caught and becomes an empty DataFrame. -/
def get_cached_stock_data_body (fetch : Except (List Char) (List Row))
    (market : MarketType) : List Row :=
  match fetch with
  | .error _ => []
  | .ok df =>
    match market with
    | .A_SHANGHAI =>
      df.filter (fun r =>
        leadsWith "6".data r.code || leadsWith "5".data r.code || leadsWith "9".data r.code)
    | .A_SHENZHEN =>
      df.filter (fun r =>
        leadsWith "0".data r.code || leadsWith "3".data r.code)
    | _ => []

/-- `CACHE_TTL` bound to `stock_cache` (stock_tool.py lines 47-48; the later
reassignment `CACHE_TTL = 10` happens after the TTLCache is built and does
not affect it). -/
def CACHE_TTL : Nat := 120

/-- The `TTLCache` state: association list from market to cached value and
fetch timestamp (seconds). -/
def CacheState : Type := List (MarketType × (List Row × Nat))

/-- TTLCache lookup at time `now`: an entry is live while
`now < fetchedAt + ttl` (cachetools expires entries once
`timer() >= expire`). -/
def cache_lookup (st : CacheState) (now : Nat) (m : MarketType) : Option (List Row) :=
  match List.lookup m st with
  | some (v, t) => if now < t + CACHE_TTL then some v else none
  | none => none

/-- `get_cached_stock_data` with the `@cached(stock_cache)` decorator
(stock_tool.py line 180): on a live cache hit return the stored value without
calling the body; on a miss run the body and store its result with the
current timestamp.  The third component counts upstream fetches triggered by
this call (0 on hit, 1 on miss). -/
def get_cached_stock_data (fetch : Except (List Char) (List Row))
    (st : CacheState) (now : Nat) (m : MarketType) :
    List Row × CacheState × Nat :=
  match cache_lookup st now m with
  | some v => (v, st, 0)
  | none =>
    let v := get_cached_stock_data_body fetch m
    (v, (m, (v, now)) :: st.filter (fun p => p.1 != m), 1)

/-- Lines 203-207 of `get_stock_realtime_price`: the lookup inside the
snapshot DataFrame — `if not df.empty`, filter by case-insensitive substring
containment, take the first row (`target.iloc[0]`). -/
def primaryLookup (df : List Row) (code : List Char) : Option Quote :=
  if df.isEmpty then none
  else
    match df.filter (fun r => containsCI r.code code) with
    | t :: _ => some (format_a_share_data t)
    | [] => none

/-- `get_stock_realtime_price` composed with the actual stateful cached
`get_cached_stock_data`; also returns the new cache state and the number of
upstream fetches triggered. -/
def get_stock_realtime_price_cached (fetch : Except (List Char) (List Row))
    (st : CacheState) (now : Nat) (stock_code : List Char) :
    Option Quote × CacheState × Nat :=
  let cm := format_stock_code stock_code
  let r := get_cached_stock_data fetch st now cm.2
  (primaryLookup r.1 cm.1, r.2.1, r.2.2)

/-- `get_stock_price_backup` (stock_tool.py lines 213-230).  The HTTP layer is
the oracle `response`: `.error` is a raised network/JSON-decode exception
after the transport's own retries, `.ok (status, body)` a decoded response.
`requests`' `raise_for_status` raises exactly for `400 ≤ status < 600`; every
exception is caught by the surrounding `except` and becomes `None`. -/
def get_stock_price_backup (response : Except (List Char) (Nat × Json))
    (stock_code : List Char) : Option Quote :=
  let cm := format_stock_code stock_code
  match response with
  | .error _ => none
  | .ok (status, body) =>
    if 400 ≤ status ∧ status < 600 then none
    else
      match parse_eastmoney_data body cm.1 cm.2 with
      | .ok r => r
      | .error _ => none

/-- The two strategies of the dispatcher. -/
inductive Strat where
  | primary
  | backup
deriving DecidableEq, Repr

/-- The inner `for retry in range(n)` loop of `get_stock_price` (lines
287-290), attempts indexed from `k`: on a truthy result return it, otherwise
`time.sleep(0.5 * (retry + 1))` and continue.  Returns the result, the list
of attempted indices, and the sleeps in deciseconds (so `0.5 * (retry+1)`
seconds is `5 * (retry+1)`). -/
def tryAttemptsFrom (f : Nat → Option Quote) (k : Nat) :
    Nat → Option Quote × List Nat × List Nat
  | 0 => (none, [], [])
  | n + 1 =>
    match f k with
    | some q => (some q, [k], [])
    | none =>
      let rest := tryAttemptsFrom f (k + 1) n
      (rest.1, k :: rest.2.1, (5 * (k + 1)) :: rest.2.2)

/-- The observable outcome of one `get_stock_price` resolution: the returned
value, the strategy calls in order (strategy, 0-based retry index), the
sleeps in deciseconds in order, and the warning log lines. -/
structure DispatchResult where
  result : Option Quote
  calls : List (Strat × Nat)
  sleeps : List Nat
  logs : List (List Char)

/-- `get_stock_price` (stock_tool.py lines 282-292):
`strategies = [get_stock_realtime_price, get_stock_price_backup]`, each tried
with `range(2)` retries and linear backoff; on total failure logs
`所有数据源获取失败: {stock_code}` and returns `None`.  The two strategies
are oracles indexed by the attempt number within this resolution. -/
def get_stock_price (primary backup : Nat → Option Quote)
    (stock_code : List Char) : DispatchResult :=
  let p := tryAttemptsFrom primary 0 2
  match p.1 with
  | some q =>
    { result := some q
      calls := p.2.1.map (fun k => (Strat.primary, k))
      sleeps := p.2.2
      logs := [] }
  | none =>
    let b := tryAttemptsFrom backup 0 2
    match b.1 with
    | some q =>
      { result := some q
        calls := p.2.1.map (fun k => (Strat.primary, k)) ++ b.2.1.map (fun k => (Strat.backup, k))
        sleeps := p.2.2 ++ b.2.2
        logs := [] }
    | none =>
      { result := none
        calls := p.2.1.map (fun k => (Strat.primary, k)) ++ b.2.1.map (fun k => (Strat.backup, k))
        sleeps := p.2.2 ++ b.2.2
        logs := ["所有数据源获取失败: ".data ++ stock_code] }

/-- Log events of the `__main__` polling loop body, abstracting the string
formatting: the per-quote info line, the failure line
`[{elapsed:.2f}s] 股票 {code} 数据获取失败`, and the desktop notification. -/
inductive LogEvent where
  | quoteInfo (elapsed : Rat) (q : Quote)
  | fetchFail (elapsed : Rat) (code : List Char)
  | notify (q : Quote)

/-- One iteration of the per-symbol loop body (stock_tool.py lines 320-341)
given `result = get_stock_price(code)` and the measured `elapsed` time: the
log events emitted, and `some err` when the body raises an uncaught
exception.  After the if/else logging, the price-alert line
`if result['代码'] == '600133' and float(result['当前价']) >= 10.9` subscripts
`result` unconditionally, which raises `TypeError` when `result` is `None`. -/
def loop_body (elapsed : Rat) (code : List Char) (result : Option Quote) :
    List LogEvent × Option (List Char) :=
  match result with
  | some r =>
    if r.code = "600133".data ∧ (109 : Rat) / 10 ≤ r.price then
      ([LogEvent.quoteInfo elapsed r, LogEvent.notify r], none)
    else
      ([LogEvent.quoteInfo elapsed r], none)
  | none =>
    ([LogEvent.fetchFail elapsed code],
     some "TypeError: NoneType object is not subscriptable".data)

/-! ### Helper lemmas -/

theorem digit_toUpper {c : Char} (h : c.isDigit = true) : c.toUpper = c := by
  simp [Char.isDigit] at h
  obtain ⟨h1, h2⟩ := h
  unfold Char.toUpper
  rw [if_neg]
  rintro ⟨ha, hb⟩
  have : c.toNat ≤ 57 := UInt32.toNat_le_of_le (by norm_num) h2
  omega

theorem digit_notStrip {c : Char} (h : c.isDigit = true) : isStripChar c = false := by
  simp only [Char.isDigit, Bool.and_eq_true, decide_eq_true_eq] at h
  simp only [isStripChar, Bool.or_eq_false_iff, beq_eq_false_iff_ne, ne_eq]
  refine ⟨⟨⟨?_, ?_⟩, ?_⟩, ?_⟩ <;> rintro rfl <;> revert h <;> decide

theorem all_digit_map_toUpper (l : List Char) (h : l.all Char.isDigit = true) :
    l.map Char.toUpper = l := by
  induction l with
  | nil => rfl
  | cons c cs ih =>
    simp only [List.all_cons, Bool.and_eq_true] at h
    simp [digit_toUpper h.1, ih h.2]

theorem format_digit6 (c : Char) (cs : List Char)
    (hdig : (c :: cs).all Char.isDigit = true)
    (hpfx : c ∈ ['6', '5', '0', '3', '9']) :
    (format_stock_code (c :: cs)).1 = c :: cs := by
  have hmap : (c :: cs).map Char.toUpper = c :: cs := all_digit_map_toUpper _ hdig
  have hc : c.isDigit = true := by
    simp only [List.all_cons, Bool.and_eq_true] at hdig
    exact hdig.1
  have hdrop : (c :: cs).dropWhile isStripChar = c :: cs := by
    simp [List.dropWhile_cons, digit_notStrip hc]
  simp only [format_stock_code, hmap, hdrop]
  fin_cases hpfx <;>
    simp [matchPrefixTable, leadsWith, STOCK_PREFIX_MAP]

/-! ### Claim C5 -/

/-- C5 counterexample: the non-6-digit input `"abc"` matches no entry of the
prefix table, yet it is NOT passed through unmodified: `format_stock_code`
first uppercases (and lstrips `'.SHZ'`), returning code `"ABC" ≠ "abc"`. -/
theorem format_stock_code_passthrough_cex :
    (format_stock_code "abc".data).1 ≠ "abc".data ∧
    format_stock_code "abc".data = ("ABC".data, MarketType.A_SHANGHAI) := by
  constructor
  · decide
  · decide

/-- C5 (amended): `format_stock_code` is total (it is a Lean function, defined
on every input string), and for every input whose normalized form — the input
uppercased with leading `'.'`, `'S'`, `'H'`, `'Z'` characters stripped — is
not 6 characters long and matches no entry of the prefix table, that
normalized form is returned as the code with market = SHANGHAI. -/
theorem format_stock_code_total_fallback (s : List Char)
    (hpm : matchPrefixTable ((s.map Char.toUpper).dropWhile isStripChar) STOCK_PREFIX_MAP = none)
    (hlen : ((s.map Char.toUpper).dropWhile isStripChar).length ≠ 6) :
    format_stock_code s = ((s.map Char.toUpper).dropWhile isStripChar, MarketType.A_SHANGHAI) := by
  simp only [format_stock_code, hpm, if_neg hlen]

/-- Witness for C5's amended theorem at the concrete input `"abc"`. -/
theorem format_stock_code_total_fallback_witness :
    format_stock_code "abc".data
      = (("abc".data.map Char.toUpper).dropWhile isStripChar, MarketType.A_SHANGHAI) :=
  format_stock_code_total_fallback "abc".data (by decide) (by decide)

/-! ### Claim C6 -/

/-- C6: for every 6-digit numeric string whose leading digit is a recognized
A-share prefix (`6/5/0/3/9`), normalization is deterministic (it is a
function) and idempotent: applying `format_stock_code` to the code component
of its own result yields the same pair as applying it once. -/
theorem format_stock_code_idempotent (c : Char) (cs : List Char)
    (hlen : (c :: cs).length = 6)
    (hdig : (c :: cs).all Char.isDigit = true)
    (hpfx : c ∈ ['6', '5', '0', '3', '9']) :
    format_stock_code ((format_stock_code (c :: cs)).1) = format_stock_code (c :: cs) := by
  rw [format_digit6 c cs hdig hpfx]

/-- Witness for C6 at the concrete input `"600133"`. -/
theorem format_stock_code_idempotent_witness :
    format_stock_code ((format_stock_code ('6' :: "00133".data)).1)
      = format_stock_code ('6' :: "00133".data) :=
  format_stock_code_idempotent '6' "00133".data (by decide) (by decide) (by decide)

/-! ### Claim C1 -/

/-- The backup-source payload of the spec's end-to-end scenario:
`{"rc":0,"data":{"f58":"浪潮信息","f43":3250,"f170":85,"f47":50000}}`. -/
def eastmoneyBackupSample : Json :=
  Json.obj [("rc".data, .num 0),
            ("data".data, .obj [("f58".data, .str "浪潮信息".data),
                                ("f43".data, .num 3250),
                                ("f170".data, .num 85),
                                ("f47".data, .num 50000)])]

/-- The price field of a parse result, when parsing succeeded with a quote. -/
def parsedPrice : Except (List Char) (Option Quote) → Option Rat
  | .ok (some q) => some q.price
  | _ => none

/-- C1 counterexample: on the spec's own sample payload (`f43 = 3250`),
`parse_eastmoney_data` does NOT divide the scaled field — the produced price
is `3250`, not `32.50`: the code is `round(item.get("f43", 0), 2)`, with no
division. -/
theorem parse_eastmoney_no_division_cex :
    parsedPrice (parse_eastmoney_data eastmoneyBackupSample "000977".data .A_SHENZHEN)
        = some 3250 ∧
    parsedPrice (parse_eastmoney_data eastmoneyBackupSample "000977".data .A_SHENZHEN)
        ≠ some (325 / 10) := by
  have h : parsedPrice (parse_eastmoney_data eastmoneyBackupSample "000977".data .A_SHENZHEN)
      = some (pyRound2 3250) := rfl
  have h2 : pyRound2 3250 = 3250 := by norm_num [pyRound2, roundHalfEven]
  rw [h, h2]
  norm_num

/-- C1 (amended): for every backup-source JSON payload with top-level
`rc = 0` and a non-empty data object carrying numeric fields `f43`, `f170`,
`f47`, parsing produces a Quote with `source = backup` (`数据源 = 备用API`)
whose price and change-percent are the RAW field values rounded to two
decimals, with no division applied (`f43 = 3250` yields price `3250`). -/
theorem parse_eastmoney_raw_fields (top item : List (List Char × Json))
    (code : List Char) (market : MarketType) (p ch v : Rat)
    (hrc : List.lookup "rc".data top = some (.num 0))
    (hdata : List.lookup "data".data top = some (.obj item))
    (hne : item ≠ [])
    (hp : List.lookup "f43".data item = some (.num p))
    (hch : List.lookup "f170".data item = some (.num ch))
    (hv : List.lookup "f47".data item = some (.num v)) :
    parse_eastmoney_data (.obj top) code market
      = .ok (some
          { code := code
            name := (List.lookup "f58".data item).getD (.str code)
            price := pyRound2 p
            changePct := pyRound2 ch
            volume := pyInt v
            marketType := market.value
            source := "备用API".data }) := by
  obtain ⟨a, t, rfl⟩ := List.exists_cons_of_ne_nil hne
  simp only [parse_eastmoney_data, hrc, hdata, isNumZero, truthy, hp, hch, hv, asNum,
    List.isEmpty_cons, Bool.not_false, Bool.and_self, if_true, beq_self_eq_true]
  rfl

/-- Witness for C1's amended theorem at the spec's sample payload. -/
theorem parse_eastmoney_raw_fields_witness :
    parse_eastmoney_data eastmoneyBackupSample "000977".data .A_SHENZHEN
      = .ok (some
          { code := "000977".data
            name := Json.str "浪潮信息".data
            price := pyRound2 3250
            changePct := pyRound2 85
            volume := pyInt 50000
            marketType := "sz".data
            source := "备用API".data }) :=
  parse_eastmoney_raw_fields
    [("rc".data, .num 0),
     ("data".data, .obj [("f58".data, .str "浪潮信息".data), ("f43".data, .num 3250),
                         ("f170".data, .num 85), ("f47".data, .num 50000)])]
    [("f58".data, .str "浪潮信息".data), ("f43".data, .num 3250),
     ("f170".data, .num 85), ("f47".data, .num 50000)]
    "000977".data .A_SHENZHEN 3250 85 50000
    rfl rfl (List.cons_ne_nil _ _) rfl rfl rfl

/-! ### Claim C8 -/

/-- The quote the backup resolver builds from `eastmoneyBackupSample` for
code `"000977"`. -/
def sampleBackupQuote : Quote :=
  { code := "000977".data
    name := Json.str "浪潮信息".data
    price := pyRound2 3250
    changePct := pyRound2 85
    volume := pyInt 50000
    marketType := "sz".data
    source := "备用API".data }

/-- C8 counterexample: the claim's "returns None on non-200 status after
retries" is false — `raise_for_status` raises only for statuses 400-599, so
a 201 response carrying a well-formed `rc = 0` payload is parsed and yields a
Quote, not `None`. -/
theorem backup_non200_quote_cex :
    get_stock_price_backup (.ok (201, eastmoneyBackupSample)) "000977".data
        = some sampleBackupQuote ∧
    get_stock_price_backup (.ok (201, eastmoneyBackupSample)) "000977".data ≠ none := by
  have h : get_stock_price_backup (.ok (201, eastmoneyBackupSample)) "000977".data
      = some sampleBackupQuote := rfl
  refine ⟨h, ?_⟩
  rw [h]
  exact Option.some_ne_none _

/-- C8 (amended): the Backup resolver never raises past its boundary —
every raised exception is modelled as an `.error` that
`get_stock_price_backup` maps to `none`.  Concretely: (1) any
network/JSON-decode exception yields `none`; (2) any 4xx/5xx status (the
statuses `raise_for_status` actually raises on — not every non-200 status)
yields `none`; (3) any parse exception yields `none`; and (4)
`parse_eastmoney_data` returns `None` (`.ok none`) whenever the payload
object lacks top-level `rc = 0` or lacks a truthy (non-empty) data object. -/
theorem backup_boundary_none (s : List Char) :
    (∀ e : List Char, get_stock_price_backup (.error e) s = none) ∧
    (∀ (status : Nat) (body : Json), 400 ≤ status → status < 600 →
      get_stock_price_backup (.ok (status, body)) s = none) ∧
    (∀ (status : Nat) (body : Json) (err : List Char),
      parse_eastmoney_data body (format_stock_code s).1 (format_stock_code s).2 = .error err →
      get_stock_price_backup (.ok (status, body)) s = none) ∧
    (∀ (top : List (List Char × Json)) (code : List Char) (market : MarketType),
      ¬(isNumZero (List.lookup "rc".data top) = true ∧
        truthy (List.lookup "data".data top) = true) →
      parse_eastmoney_data (.obj top) code market = .ok none) := by
  refine ⟨fun e => rfl, ?_, ?_, ?_⟩
  · intro status body h1 h2
    simp [get_stock_price_backup, h1, h2]
  · intro status body err herr
    by_cases hs : 400 ≤ status ∧ status < 600
    · simp [get_stock_price_backup, hs]
    · simp [get_stock_price_backup, hs, herr]
  · intro top code market h
    have hfalse : (isNumZero (List.lookup "rc".data top)
        && truthy (List.lookup "data".data top)) = false := by
      rw [Bool.eq_false_iff]
      intro hb
      rw [Bool.and_eq_true] at hb
      exact h ⟨hb.1, hb.2⟩
    simp [parse_eastmoney_data, hfalse]

/-- Witness for C8's amended theorem at concrete inputs: a network timeout, a
404 response, and a payload with `rc = 1`. -/
theorem backup_boundary_none_witness :
    get_stock_price_backup (.error "Timeout".data) "600133".data = none ∧
    get_stock_price_backup (.ok (404, eastmoneyBackupSample)) "600133".data = none ∧
    parse_eastmoney_data (.obj [("rc".data, Json.num 1)]) "600133".data .A_SHANGHAI
        = .ok none :=
  ⟨(backup_boundary_none "600133".data).1 "Timeout".data,
   (backup_boundary_none "600133".data).2.1 404 eastmoneyBackupSample
     (by norm_num) (by norm_num),
   (backup_boundary_none "600133".data).2.2.2 [("rc".data, Json.num 1)]
     "600133".data .A_SHANGHAI (by decide)⟩

/-! ### Claim C2 -/

/-- C2 (code bug): when `get_stock_price` returns `None` for a symbol, the
loop body does log the failure with the symbol and elapsed time, but then
unconditionally evaluates `result['代码']` in the price-alert check, raising
`TypeError` — the loop body does not complete and the polling loop dies,
contradicting the spec's "none are fatal to the overall polling loop". -/
theorem loop_body_raises_on_none :
    loop_body 2 "002261".data none
      = ([LogEvent.fetchFail 2 "002261".data],
         some "TypeError: NoneType object is not subscriptable".data) := rfl

/-! ### Claims C3 and C4 -/

/-- The snapshot row of the spec's end-to-end scenario for `"600133"`. -/
def sampleRow : Row :=
  { code := "600133".data
    name := "东湖高新".data
    latestPrice := 217 / 20
    changePct := 6 / 5
    volume := 120000 }

/-- A concrete quote, used to instantiate the dispatcher oracles. -/
def sampleQuote : Quote := format_a_share_data sampleRow

/-- C3: if the Primary resolver returns a Quote on some attempt, the
dispatcher `get_stock_price` returns that Quote immediately and the Backup
resolver is never invoked during that resolution. -/
theorem dispatcher_short_circuit (primary backup : Nat → Option Quote)
    (s : List Char) (q : Quote)
    (h : primary 0 = some q ∨ (primary 0 = none ∧ primary 1 = some q)) :
    (get_stock_price primary backup s).result = some q ∧
    ∀ n, (Strat.backup, n) ∉ (get_stock_price primary backup s).calls := by
  rcases h with h0 | ⟨h0, h1⟩
  · have hp : tryAttemptsFrom primary 0 2 = (some q, [0], []) := by
      simp [tryAttemptsFrom, h0]
    simp [get_stock_price, hp]
  · have hp : tryAttemptsFrom primary 0 2 = (some q, [0, 1], [5]) := by
      simp [tryAttemptsFrom, h0, h1]
    simp [get_stock_price, hp]

/-- Witness for C3: the Primary oracle succeeds on its first attempt. -/
theorem dispatcher_short_circuit_witness :
    (get_stock_price (fun _ => some sampleQuote) (fun _ => none) "600133".data).result
        = some sampleQuote ∧
    (Strat.backup, 0) ∉
        (get_stock_price (fun _ => some sampleQuote) (fun _ => none) "600133".data).calls :=
  ⟨(dispatcher_short_circuit (fun _ => some sampleQuote) (fun _ => none)
      "600133".data sampleQuote (Or.inl rfl)).1,
   (dispatcher_short_circuit (fun _ => some sampleQuote) (fun _ => none)
      "600133".data sampleQuote (Or.inl rfl)).2 0⟩

/-- C4: when every attempt of both resolvers returns `None`, `get_stock_price`
tries Primary then Backup with exactly 2 calls each, sleeps
`0.5s × attempt-number` after each failed attempt (the sleep list, in
deciseconds, is `[5, 10, 5, 10]`, a bounded total of 3.0s), returns `None`,
and logs the all-sources-failed warning for that symbol. -/
theorem dispatcher_all_fail (primary backup : Nat → Option Quote) (s : List Char)
    (hp0 : primary 0 = none) (hp1 : primary 1 = none)
    (hb0 : backup 0 = none) (hb1 : backup 1 = none) :
    get_stock_price primary backup s =
      { result := none
        calls := [(Strat.primary, 0), (Strat.primary, 1), (Strat.backup, 0), (Strat.backup, 1)]
        sleeps := [5, 10, 5, 10]
        logs := ["所有数据源获取失败: ".data ++ s] } := by
  have hp : tryAttemptsFrom primary 0 2 = (none, [0, 1], [5, 10]) := by
    simp [tryAttemptsFrom, hp0, hp1]
  have hb : tryAttemptsFrom backup 0 2 = (none, [0, 1], [5, 10]) := by
    simp [tryAttemptsFrom, hb0, hb1]
  simp [get_stock_price, hp, hb]

/-- Witness for C4: both oracles always return `None`. -/
theorem dispatcher_all_fail_witness :
    get_stock_price (fun _ => none) (fun _ => none) "600133".data =
      { result := none
        calls := [(Strat.primary, 0), (Strat.primary, 1), (Strat.backup, 0), (Strat.backup, 1)]
        sleeps := [5, 10, 5, 10]
        logs := ["所有数据源获取失败: ".data ++ "600133".data] } :=
  dispatcher_all_fail (fun _ => none) (fun _ => none) "600133".data rfl rfl rfl rfl

/-! ### Claim C7 -/

/-- C9: (1) after a lookup at time `t0` misses and fetches, a second lookup at
any time `t1` within the TTL window returns the stored snapshot with zero
upstream fetches and an unchanged cache; (2) a lookup at a time past the
entry's TTL expiry triggers exactly one re-fetch. -/
theorem cache_ttl_behavior (fetch1 fetch2 fetch3 : Except (List Char) (List Row))
    (st : CacheState) (m : MarketType) (t0 t1 t2 t : Nat) (v : List Row) :
    (cache_lookup st t0 m = none → t1 < t0 + CACHE_TTL →
      get_cached_stock_data fetch2 (get_cached_stock_data fetch1 st t0 m).2.1 t1 m
        = ((get_cached_stock_data fetch1 st t0 m).1,
           (get_cached_stock_data fetch1 st t0 m).2.1, 0))
    ∧ (List.lookup m st = some (v, t) → t + CACHE_TTL ≤ t2 →
      (get_cached_stock_data fetch3 st t2 m).2.2 = 1) := by
  constructor
  · intro hmiss h1
    have hst1 : get_cached_stock_data fetch1 st t0 m
        = (get_cached_stock_data_body fetch1 m,
           (m, (get_cached_stock_data_body fetch1 m, t0)) :: st.filter (fun p => p.1 != m),
           1) := by
      simp [get_cached_stock_data, hmiss]
    rw [hst1]
    simp [get_cached_stock_data, cache_lookup, List.lookup, h1]
  · intro hent hexp
    have hnone : cache_lookup st t2 m = none := by
      simp only [cache_lookup, hent]
      rw [if_neg]
      omega
    simp [get_cached_stock_data, hnone]

/-- Witness for C9: a fetch at time 0 into an empty cache, a within-TTL hit at
time 100, and an expired entry re-fetched at time 200. -/
theorem cache_ttl_behavior_witness :
    (get_cached_stock_data (.ok [sampleRow])
        (get_cached_stock_data (.ok [sampleRow]) [] 0 .A_SHANGHAI).2.1 100 .A_SHANGHAI
      = ((get_cached_stock_data (.ok [sampleRow]) [] 0 .A_SHANGHAI).1,
         (get_cached_stock_data (.ok [sampleRow]) [] 0 .A_SHANGHAI).2.1, 0)) ∧
    ((get_cached_stock_data (.ok [sampleRow])
        [(MarketType.A_SHENZHEN, ([], 0))] 200 .A_SHENZHEN).2.2 = 1) :=
  ⟨(cache_ttl_behavior (.ok [sampleRow]) (.ok [sampleRow]) (.ok [sampleRow])
      [] .A_SHANGHAI 0 100 200 0 []).1 rfl (by norm_num [CACHE_TTL]),
   (cache_ttl_behavior (.ok [sampleRow]) (.ok [sampleRow]) (.ok [sampleRow])
      [(MarketType.A_SHENZHEN, ([], 0))] .A_SHENZHEN 0 100 200 0 []).2 rfl
      (by norm_num [CACHE_TTL])⟩

/-! ### Claim C10 -/

/-- C10: when the upstream bulk fetch raises inside `get_cached_stock_data`,
the resulting empty snapshot is itself stored in the TTL cache under that
market key: the call returns `[]` with one fetch, and every later lookup
within the TTL returns the cached empty snapshot without re-contacting the
upstream (zero fetches, even with a now-healthy upstream), so the Primary
resolver keeps returning `None` for every symbol of that market until the
entry expires. -/
theorem cache_error_poisoning (e : List Char) (fetch2 : Except (List Char) (List Row))
    (st : CacheState) (m : MarketType) (t0 t1 : Nat) (s : List Char)
    (hmiss : cache_lookup st t0 m = none)
    (h1 : t1 < t0 + CACHE_TTL)
    (hm : (format_stock_code s).2 = m) :
    (get_cached_stock_data (.error e) st t0 m).1 = [] ∧
    (get_cached_stock_data (.error e) st t0 m).2.2 = 1 ∧
    get_cached_stock_data fetch2 (get_cached_stock_data (.error e) st t0 m).2.1 t1 m
      = ([], (get_cached_stock_data (.error e) st t0 m).2.1, 0) ∧
    get_stock_realtime_price_cached fetch2 (get_cached_stock_data (.error e) st t0 m).2.1 t1 s
      = (none, (get_cached_stock_data (.error e) st t0 m).2.1, 0) := by
  have hst1 : get_cached_stock_data (.error e) st t0 m
      = ([], (m, ([], t0)) :: st.filter (fun p => p.1 != m), 1) := by
    simp [get_cached_stock_data, hmiss, get_cached_stock_data_body]
  rw [hst1]
  refine ⟨rfl, rfl, ?_, ?_⟩
  · simp [get_cached_stock_data, cache_lookup, List.lookup, h1]
  · simp [get_stock_realtime_price_cached, hm, get_cached_stock_data, cache_lookup,
      List.lookup, h1, primaryLookup]

/-- Witness for C10: the upstream raises at time 0; at time 50 the Primary
resolver returns `None` for `"600133"` without a re-fetch, although the
upstream is healthy again. -/
theorem cache_error_poisoning_witness :
    get_stock_realtime_price_cached (.ok [sampleRow])
        (get_cached_stock_data (.error "ConnectionError".data) [] 0 .A_SHANGHAI).2.1
        50 "600133".data
      = (none,
         (get_cached_stock_data (.error "ConnectionError".data) [] 0 .A_SHANGHAI).2.1,
         0) :=
  (cache_error_poisoning "ConnectionError".data (.ok [sampleRow]) [] .A_SHANGHAI 0 50
    "600133".data rfl (by norm_num [CACHE_TTL]) (by decide)).2.2.2
